import Mathlib

/-! # Verification of the Mackay child-hospital registration monitor

Shallow embedding of `mackay_registrar.py`: the result classifier
(`parse_result` / `extract_details_from_page`), the cooldown state store
(`load_state` / `save_state` / `should_skip_check`), the attempt scheduler
(`batch_registration`) and the process entry point (`main`).

Python strings are modelled as Lean `String`; the `in` substring test,
`str.replace`, `str.strip` and slicing are re-implemented character-wise
below so that every definition is executable.  External effects (HTTP,
SMTP, the wall clock, ISO-8601 parsing and printing) enter as explicit
oracle parameters of the scheduler environment.
-/

/-- Python `needle in hay` prefix test on character lists. -/
def listStartsWith : List Char → List Char → Bool
  | [], _ => true
  | _ :: _, [] => false
  | a :: as, b :: bs => a == b && listStartsWith as bs

/-- Python substring containment: `needle` occurs contiguously in `hay`. -/
def containsSeq (n : List Char) : List Char → Bool
  | [] => n.isEmpty
  | c :: cs => listStartsWith n (c :: cs) || containsSeq n cs

/-- Python `needle in hay` on strings. -/
def pyIn (needle hay : String) : Bool :=
  containsSeq needle.toList hay.toList

/-- Delete occurrences of `pat`, with a fuel counter bounding the number
of steps so the recursion is structural (each step consumes at least one
character, so fuel `s.length` is always enough). -/
def removeAllAux : Nat → List Char → List Char → List Char
  | 0, _, s => s
  | _ + 1, _, [] => []
  | f + 1, pat, c :: cs =>
    if pat.isEmpty then c :: removeAllAux f pat cs
    else if listStartsWith pat (c :: cs) then
      removeAllAux f pat (cs.drop (pat.length - 1))
    else c :: removeAllAux f pat cs

/-- Python `text.replace(pat, '')`: delete every (non-overlapping,
left-to-right) occurrence of `pat`. -/
def removeAll (pat : List Char) (s : List Char) : List Char :=
  removeAllAux s.length pat s

/-- Python `text.replace(pat, '')` on strings. -/
def pyReplaceDel (s pat : String) : String :=
  ⟨removeAll pat.toList s.toList⟩

/-- Python `str.strip()` on character lists. -/
def pyStripL (l : List Char) : List Char :=
  ((l.dropWhile Char.isWhitespace).reverse.dropWhile Char.isWhitespace).reverse

/-- Python `str.strip()` on strings. -/
def pyStrip (s : String) : String :=
  ⟨pyStripL s.toList⟩

/-- Python falsiness of an optional string field (`not result.get(key)`):
true when the key is absent or holds the empty string. -/
def optFalsy : Option String → Bool
  | none => true
  | some s => s == ""

/-- The keyword lists of `parse_result`, step 1 (success). -/
def success_keywords : List String :=
  ["掛號成功", "預約成功", "掛號完成", "已掛號", "成功掛號"]

/-- The keyword lists of `parse_result`, step 2 (slot full). -/
def full_keywords : List String :=
  ["滿號", "請改掛", "已額滿", "額滿", "已掛滿"]

/-- The keyword lists of `parse_result`, step 3 (explicit errors). -/
def error_keywords : List String :=
  ["驗證碼錯誤", "身份證錯誤", "生日錯誤", "資料錯誤"]

/-- Does any keyword of the list occur in the page text? -/
def hasKw (kws : List String) (text : String) : Bool :=
  kws.any (fun k => pyIn k text)

/-- First keyword of the list occurring in the page text, if any
(the order of the python `for` loop). -/
def findKw (kws : List String) (text : String) : Option String :=
  kws.find? (fun k => pyIn k text)

/-- The result dictionary built by `parse_result`; absent keys are `none`.
`success` is present in every dictionary the code returns. -/
structure ResultDict where
  success : Bool := false
  full : Option Bool := none
  error : Option String := none
  status : Option String := none
  appointment_date : Option String := none
  department : Option String := none
  doctor : Option String := none
deriving DecidableEq

/-- One `<table>` element as `parse_result` step 5 inspects it:
its flattened text and the first two cell texts of each row. -/
structure TableData where
  text : String
  rows : List (List String)
deriving DecidableEq

/-- Everything `parse_result` reads from the parsed response page.
`pageText` is `soup.get_text()`; `strongPairs` pairs each `<strong>` tag
text with the first non-empty following-sibling text;
`regexFind pattern` is the first capture group of `re.search(pattern, page_text)`;
`myprintItems` holds the stripped `<li>` texts of `div#myprint` when that
div exists; `errorDivTexts` the stripped texts of elements with an
error/alert/warning class; `parseError` is `some msg` when evaluating the
body of `parse_result` raises an exception with message `msg`. -/
structure PageInput where
  pageText : String
  strongPairs : List (String × String)
  regexFind : String → Option String
  myprintItems : Option (List String)
  tables : List TableData
  errorDivTexts : List String
  parseError : Option String

/-- One step of the `<strong>`-tag scan in `extract_details_from_page`. -/
def strong_step (r : ResultDict) (pair : String × String) : ResultDict :=
  if pyIn "日期" pair.1 && optFalsy r.appointment_date then
    { r with appointment_date := some pair.2 }
  else if pyIn "科別" pair.1 && optFalsy r.department then
    { r with department := some pair.2 }
  else if pyIn "醫師" pair.1 && optFalsy r.doctor then
    { r with doctor := some pair.2 }
  else r

/-- The regex fallback patterns of `extract_details_from_page`, in order,
each paired with the dictionary key it fills. -/
def detail_patterns : List (String × String) :=
  [("看診日期[：:]?\\s*([^\\s]+)", "appointment_date"),
   ("科別[：:]?\\s*([^\\s]+)", "department"),
   ("醫師[：:]?\\s*([^\\s]+)", "doctor"),
   ("(\\d\x7b4\x7d[-/]\\d\x7b1,2\x7d[-/]\\d\x7b1,2\x7d)", "appointment_date")]

/-- Read a detail field of the dictionary by its python key. -/
def getDetail (r : ResultDict) (key : String) : Option String :=
  if key == "appointment_date" then r.appointment_date
  else if key == "department" then r.department
  else if key == "doctor" then r.doctor
  else none

/-- Set a detail field of the dictionary by its python key. -/
def setDetail (r : ResultDict) (key : String) (v : String) : ResultDict :=
  if key == "appointment_date" then { r with appointment_date := some v }
  else if key == "department" then { r with department := some v }
  else if key == "doctor" then { r with doctor := some v }
  else r

/-- `extract_details_from_page`: strong-tag scan, regex fallbacks, then the
unconditional `result['status'] = '掛號成功'`. -/
def extract_details_from_page (inp : PageInput) : ResultDict :=
  let r1 := inp.strongPairs.foldl strong_step {}
  let r2 := detail_patterns.foldl
    (fun r pk =>
      match inp.regexFind pk.1 with
      | some v => if optFalsy (getDetail r pk.2) then setDetail r pk.2 v else r
      | none => r) r1
  { r2 with status := some "掛號成功" }

/-- One `<li>` of `div#myprint` (the elif chain on its stripped text). -/
def myprint_step (r : ResultDict) (text : String) : ResultDict :=
  if pyIn "看診日期：" text then
    { r with appointment_date := some (pyStrip (pyReplaceDel text "看診日期：")) }
  else if pyIn "看診科別：" text then
    { r with department := some (pyStrip (pyReplaceDel text "看診科別：")) }
  else if pyIn "看診醫師：" text then
    { r with doctor := some (pyStrip (pyReplaceDel text "看診醫師：")) }
  else if pyIn "掛號結果：" text then
    { r with status := some (pyStrip (pyReplaceDel text "掛號結果：")) }
  else r

/-- Build the dictionary from the `<li>` items of `div#myprint`. -/
def myprint_scan (items : List String) : ResultDict :=
  items.foldl myprint_step {}

/-- Re-classification of an extracted `掛號結果` status text, shared
verbatim by `parse_result` steps 4 and 5. -/
def classify_status (r : ResultDict) (s : String) : ResultDict :=
  if pyIn "滿號" s || pyIn "請改掛" s then { r with success := false, full := some true }
  else if pyIn "成功" s || pyIn "已掛號" s then { r with success := true, full := some false }
  else { r with success := false, full := some false }

/-- One row of a result table: first cell is the key, second the value. -/
def table_step (r : ResultDict) (row : List String) : ResultDict :=
  match row with
  | key :: value :: _ =>
    if pyIn "日期" key then { r with appointment_date := some value }
    else if pyIn "科別" key then { r with department := some value }
    else if pyIn "醫師" key then { r with doctor := some value }
    else if pyIn "結果" key then { r with status := some value }
    else r
  | _ => r

/-- Build the dictionary from the rows of one result table. -/
def table_fold (rows : List (List String)) : ResultDict :=
  rows.foldl table_step {}

/-- `parse_result` step 5: scan the tables for one mentioning 掛號結果 or
看診日期 whose rows yield a status, and classify that status. -/
def table_scan : List TableData → Option ResultDict
  | [] => none
  | t :: rest =>
    if pyIn "掛號結果" t.text || pyIn "看診日期" t.text then
      let r := table_fold t.rows
      match r.status with
      | some s => some (classify_status r s)
      | none => table_scan rest
    else table_scan rest

/-- `parse_result` step 7 preview: `page_text.replace('\n',' ').replace('\r','').strip()[:500]`. -/
def previewText (s : String) : String :=
  ⟨(pyStripL ((s.toList.map fun c => if c = '\n' then ' ' else c).filter
      fun c => c ≠ '\r')).take 500⟩

/-- `parse_result` steps 6 and 7: inline error/alert markup, else the
raw-excerpt fallback. -/
def after_tables (inp : PageInput) : ResultDict :=
  if inp.errorDivTexts.isEmpty then
    { success := false
      error := some ("無法解析結果，頁面內容: " ++ previewText inp.pageText ++ "...") }
  else
    { success := false
      error := some ("頁面錯誤: " ++
        ⟨(String.intercalate " | " (inp.errorDivTexts.take 3)).toList.take 100⟩) }

/-- `parse_result` steps 5–7 (everything after the `myprint` block). -/
def after_myprint (inp : PageInput) : ResultDict :=
  match table_scan inp.tables with
  | some r => r
  | none => after_tables inp

/-- `parse_result`: the full classifier cascade.  The surrounding
`try/except` is the `parseError` match: when the body raises, the code
returns `{'success': False, 'error': '解析異常: ...'}`. -/
def parse_result (inp : PageInput) : ResultDict :=
  match inp.parseError with
  | some e => { success := false, error := some ("解析異常: " ++ e) }
  | none =>
    if hasKw success_keywords inp.pageText then
      { extract_details_from_page inp with success := true, full := some false }
    else if hasKw full_keywords inp.pageText then
      { success := false, full := some true, status := some "已滿號或無可用時段" }
    else
      match findKw error_keywords inp.pageText with
      | some k => { success := false, error := some k, full := some false }
      | none =>
        match inp.myprintItems with
        | some items =>
          let r := myprint_scan items
          match r.status with
          | some s => classify_status r s
          | none => after_myprint inp
        | none => after_myprint inp

/-- The on-disk cooldown state (`mackay_state.json`), field for field the
default dictionary of `load_state`. -/
structure CooldownState where
  last_notification_time : Option String := none
  pause_until : Option String := none
  notification_count : Nat := 0
  last_check : Option String := none
deriving DecidableEq

/-- The default state `load_state` returns when no file exists. -/
def default_state : CooldownState := {}

/-- What `should_skip_check` produces: its boolean return value, the
stored state after the call, and whether `save_state` was invoked. -/
structure SkipResult where
  skip : Bool
  state : CooldownState
  saved : Bool
deriving DecidableEq

/-- `should_skip_check`.  `pt` is `datetime.fromisoformat` (`none` when it
raises), `now` the current clock reading.  A falsy `pause_until` (absent
or the empty string) bypasses the whole block; an expired or unparseable
pause is cleared and saved. -/
def should_skip_check (pt : String → Option Nat) (now : Nat)
    (st : CooldownState) : SkipResult :=
  match st.pause_until with
  | none => ⟨false, st, false⟩
  | some s =>
    if s = "" then ⟨false, st, false⟩
    else
      match pt s with
      | some t =>
        if now < t then ⟨true, st, false⟩
        else ⟨false, { st with pause_until := none }, true⟩
      | none => ⟨false, { st with pause_until := none }, true⟩

/-- One entry of `doctors_to_try`. -/
structure Doctor where
  code : String
  name : String
deriving DecidableEq

/-- The hard-coded date list of `batch_registration`. -/
def dates_to_try : List String :=
  ["2025/12/17", "2025/12/27", "2026/01/03"]

/-- The hard-coded doctor list of `batch_registration`. -/
def doctors_to_try : List Doctor :=
  [⟨"4561", "丁瑋信"⟩]

/-- The external world as the scheduler sees it: `pt` is ISO-8601 parsing,
`iso` is `datetime.isoformat` of a clock reading, `now` the current clock
reading in seconds, `initOk` whether `init_session` returns without
raising, `respond date doctorCode` the dictionary `make_appointment`
returns for that attempt (its HTTP layer plus `parse_result`), and
`notifyOk` the boolean result of `send_email_notification` (which never
raises). -/
structure Env where
  pt : String → Option Nat
  iso : Nat → String
  now : Nat
  initOk : Bool
  respond : String → String → ResultDict
  notifyOk : Bool

/-- Observable external actions of one run: an HTTP registration
submission for a (date, doctor code) pair, and a notification attempt
carrying the result dictionary it was given and whether the send
succeeded. -/
inductive Event where
  | submit (date : String) (doctorCode : String)
  | notifyCall (r : ResultDict) (ok : Bool)
deriving DecidableEq

/-- The candidate order of the nested loops: dates outer, doctors inner. -/
def candList (dates : List String) (doctors : List Doctor) :
    List (String × Doctor) :=
  dates.flatMap fun d => doctors.map fun doc => (d, doc)

/-- The cooldown update performed inside
`if self.send_email_notification(result):` — pause two hours (7200 s),
record the notification time, bump the counter. -/
def updatedState (env : Env) (st : CooldownState) : CooldownState :=
  { st with
    pause_until := some (env.iso (env.now + 7200))
    last_notification_time := some (env.iso env.now)
    notification_count := st.notification_count + 1 }

/-- The candidate loop of `batch_registration`: submit each candidate in
order; on the first `success` dictionary, attempt notification (updating
the stored state only when the send succeeded) and return `"success"`;
after exhausting the list, stamp `last_check` and return
`"no_availability"`. -/
def runLoop (env : Env) (st : CooldownState) :
    List (String × Doctor) → String × CooldownState × List Event
  | [] => ("no_availability", { st with last_check := some (env.iso env.now) }, [])
  | c :: rest =>
    let r := env.respond c.1 c.2.code
    if r.success then
      ("success", if env.notifyOk then updatedState env st else st,
        [Event.submit c.1 c.2.code, Event.notifyCall r env.notifyOk])
    else
      let t := runLoop env st rest
      (t.1, t.2.1, Event.submit c.1 c.2.code :: t.2.2)

/-- `batch_registration`: skip guard, session initialization, then the
candidate loop.  Returns the python return string, the stored state after
the run, and the trace of external actions. -/
def batch_registration (env : Env) (dates : List String)
    (doctors : List Doctor) (st0 : CooldownState) :
    String × CooldownState × List Event :=
  let sk := should_skip_check env.pt env.now st0
  if sk.skip then ("skipped", sk.state, [])
  else if env.initOk then runLoop env sk.state (candList dates doctors)
  else ("init_failed", sk.state, [])

/-- `main` composed with process exit: `envVarsOk` is whether
`validate_environment` found the required variables (when not, its
`sys.exit(1)` escapes the `except Exception` handler and the process
exits 1); `ctorOk` is whether the rest of the work raised an exception
that the handler caught (then `main` returns 1).  Otherwise `main` logs
the result of `batch_registration` and returns 0. -/
def main_exit (envVarsOk ctorOk : Bool) (env : Env) (st0 : CooldownState) : Nat :=
  if !envVarsOk then 1
  else if !ctorOk then 1
  else
    let _r := batch_registration env dates_to_try doctors_to_try st0
    0

/-- Number of notification attempts in a trace. -/
def isNotify : Event → Bool
  | Event.notifyCall _ _ => true
  | _ => false

/-- Count the notification attempts of a trace. -/
def notifyCount (tr : List Event) : Nat :=
  tr.countP isNotify

/-- Trace, result string and final state of the candidate loop, as
functions of where the first successful response sits in the list. -/
theorem runLoop_spec (env : Env) (st : CooldownState)
    (cs : List (String × Doctor)) :
    (runLoop env st cs).1 =
      (if cs.any (fun c => (env.respond c.1 c.2.code).success) then "success"
       else "no_availability")
    ∧ (runLoop env st cs).2.1 =
      (if cs.any (fun c => (env.respond c.1 c.2.code).success) then
         (if env.notifyOk then updatedState env st else st)
       else { st with last_check := some (env.iso env.now) })
    ∧ (runLoop env st cs).2.2 =
      (cs.takeWhile (fun c => !(env.respond c.1 c.2.code).success)).map
        (fun c => Event.submit c.1 c.2.code)
      ++ (match cs.dropWhile (fun c => !(env.respond c.1 c.2.code).success) with
          | [] => []
          | c :: _ =>
            [Event.submit c.1 c.2.code,
             Event.notifyCall (env.respond c.1 c.2.code) env.notifyOk]) := by
  induction cs with
  | nil => simp [runLoop]
  | cons c rest ih =>
    by_cases hb : (env.respond c.1 c.2.code).success = true
    · simp [runLoop, hb]
    · have hb' : (env.respond c.1 c.2.code).success = false := by
        simp at hb; exact hb
      refine ⟨?_, ?_, ?_⟩
      · simp only [runLoop, hb', if_false, Bool.false_eq_true, List.any_cons,
          Bool.false_or]
        exact ih.1
      · simp only [runLoop, hb', if_false, Bool.false_eq_true, List.any_cons,
          Bool.false_or]
        exact ih.2.1
      · simp only [runLoop, hb', Bool.false_eq_true, if_false, List.any_cons,
          Bool.not_false, List.takeWhile_cons_of_pos, List.dropWhile_cons_of_pos,
          List.map_cons, List.cons_append]
        rw [ih.2.2]

/-- When the skip guard and session initialization both pass,
`batch_registration` is the candidate loop on the post-guard state. -/
theorem batch_run (env : Env) (dates : List String) (doctors : List Doctor)
    (st0 : CooldownState)
    (h1 : (should_skip_check env.pt env.now st0).skip = false)
    (h2 : env.initOk = true) :
    batch_registration env dates doctors st0 =
      runLoop env (should_skip_check env.pt env.now st0).state
        (candList dates doctors) := by
  simp [batch_registration, h1, h2]

/-- Submit events carry no notification. -/
theorem notifyCount_map_submit (xs : List (String × Doctor)) :
    notifyCount (xs.map fun c => Event.submit c.1 c.2.code) = 0 := by
  induction xs with
  | nil => rfl
  | cons x t ih =>
    simp [notifyCount, isNotify, List.countP_cons, ih]

/-- A list whose members all fail `p` has `dropWhile` of `!p` empty, so a
witnessed success forces a nonempty tail. -/
theorem dropWhile_ne_nil_of_any {α : Type} (p : α → Bool) (l : List α)
    (h : l.any p = true) : l.dropWhile (fun a => !(p a)) ≠ [] := by
  intro hnil
  rw [List.dropWhile_eq_nil_iff] at hnil
  rcases List.any_eq_true.mp h with ⟨a, ha, hpa⟩
  have := hnil a ha
  simp [hpa] at this

/-- A page whose text contains a full-slot keyword (已額滿) followed by a
success keyword (掛號成功). -/
def c1input : PageInput :=
  { pageText := "已額滿 掛號成功", strongPairs := [], regexFind := fun _ => none,
    myprintItems := none, tables := [], errorDivTexts := [], parseError := none }

/-- C1 counterexample: a page containing both a full-slot keyword and a
success keyword is classified as a success (`success = True`,
`full = False`), not as `Full`, because `parse_result` checks the success
keywords first (step 1) and the full-slot keywords second (step 2). -/
theorem c1_success_checked_first :
    (parse_result c1input).success = true
    ∧ (parse_result c1input).full = some false := by
  decide

/-- C1 amended: for every classifier input whose page text contains a
full-slot keyword and no success keyword, `parse_result` returns the
`Full` dictionary, regardless of any other keywords in the text. -/
theorem c1_full_when_no_success_kw (inp : PageInput)
    (h0 : inp.parseError = none)
    (h1 : hasKw full_keywords inp.pageText = true)
    (h2 : hasKw success_keywords inp.pageText = false) :
    parse_result inp =
      { success := false, full := some true, status := some "已滿號或無可用時段" } := by
  simp [parse_result, h0, h1, h2]

/-- C1 amended, witnessed on a page containing the full keyword 滿號 and an
unrelated error keyword but no success keyword. -/
theorem c1_full_when_no_success_kw_witness :
    parse_result
      { pageText := "滿號 驗證碼錯誤", strongPairs := [], regexFind := fun _ => none,
        myprintItems := none, tables := [], errorDivTexts := [], parseError := none } =
      { success := false, full := some true, status := some "已滿號或無可用時段" } :=
  c1_full_when_no_success_kw _ rfl (by decide) (by decide)

/-- A page on which classification raises with message `boom`. -/
def c3input : PageInput :=
  { pageText := "ABCDE", strongPairs := [], regexFind := fun _ => none,
    myprintItems := none, tables := [], errorDivTexts := [], parseError := some "boom" }

/-- C3 counterexample: when classification raises, the returned
dictionary carries `'解析異常: ' + str(e)` — the exception message — and
not the raw page excerpt: the 500-character preview of the page text does
not occur in the outcome at all (the raw HTML goes to a debug file
instead). -/
theorem c3_exception_payload_is_message :
    parse_result c3input = { success := false, error := some "解析異常: boom" }
    ∧ pyIn (previewText c3input.pageText) "解析異常: boom" = false := by
  decide

/-- C3 amended: on every input whose classification raises,
`parse_result` returns the fallback dictionary
`{'success': False, 'error': '解析異常: ' + msg}` — never a success and
never a `Full` verdict, and distinct in shape from the keyword-error
outcomes. -/
theorem c3_exception_to_fallback (inp : PageInput) (m : String)
    (h : inp.parseError = some m) :
    parse_result inp = { success := false, error := some ("解析異常: " ++ m) }
    ∧ (parse_result inp).success = false
    ∧ (parse_result inp).full ≠ some true := by
  refine ⟨?_, ?_, ?_⟩ <;> simp [parse_result, h]

/-- C3 amended, witnessed at a concrete raising input. -/
theorem c3_exception_to_fallback_witness :
    parse_result
      { pageText := "x", strongPairs := [], regexFind := fun _ => none,
        myprintItems := none, tables := [], errorDivTexts := [],
        parseError := some "oops" } =
      { success := false, error := some ("解析異常: " ++ "oops") } :=
  (c3_exception_to_fallback _ "oops" rfl).1

/-- A page with a `myprint` block whose 掛號結果 text (處理中) matches no
keyword rule, alongside a tabular result block (which the fall-through
rules would classify as `Full` via its 請改掛 status) and error-styled
markup. -/
def c8input : PageInput :=
  { pageText := "plain", strongPairs := [], regexFind := fun _ => none,
    myprintItems := some ["掛號結果：處理中"],
    tables := [⟨"掛號結果", [["掛號結果", "請改掛"]]⟩],
    errorDivTexts := ["ERR"], parseError := none }

/-- C8 counterexample: when the `myprint` outcome text matches none of the
keyword rules, `parse_result` returns the structured-block dictionary
(`success = False`, `full = False`, the raw status) instead of falling
through: the subsequent rules (here the tabular block) would have
produced a different outcome — a `Full` verdict — and the classifier
does not produce it. -/
theorem c8_no_fallthrough_on_unmatched_status :
    parse_result c8input =
      { success := false, full := some false, status := some "處理中" }
    ∧ after_myprint c8input =
      { success := false, full := some true, status := some "請改掛" }
    ∧ parse_result c8input ≠ after_myprint c8input := by
  decide

/-- C8 amended: when the `myprint` block is present and earlier keyword
rules did not fire, an outcome text matching none of the status keywords
yields the structured-block dictionary itself with
`success = False, full = False`; the classifier falls through to the
later rules only when the block has no outcome-text field. -/
theorem c8_myprint_unmatched_returns_block (inp : PageInput)
    (items : List String) (s : String)
    (h0 : inp.parseError = none)
    (h1 : hasKw success_keywords inp.pageText = false)
    (h2 : hasKw full_keywords inp.pageText = false)
    (h3 : findKw error_keywords inp.pageText = none)
    (h4 : inp.myprintItems = some items) :
    ((myprint_scan items).status = some s →
      pyIn "滿號" s = false → pyIn "請改掛" s = false →
      pyIn "成功" s = false → pyIn "已掛號" s = false →
      parse_result inp =
        { myprint_scan items with success := false, full := some false })
    ∧ ((myprint_scan items).status = none →
      parse_result inp = after_myprint inp) := by
  constructor
  · intro hs m1 m2 m3 m4
    simp [parse_result, h0, h1, h2, h3, h4, hs, classify_status, m1, m2, m3, m4]
  · intro hs
    simp [parse_result, h0, h1, h2, h3, h4, hs]

/-- C8 amended, witnessed on a block whose outcome text is 視訊. -/
theorem c8_myprint_unmatched_returns_block_witness :
    parse_result
      { pageText := "q", strongPairs := [], regexFind := fun _ => none,
        myprintItems := some ["掛號結果：視訊"], tables := [],
        errorDivTexts := [], parseError := none } =
      { myprint_scan ["掛號結果：視訊"] with success := false, full := some false } :=
  (c8_myprint_unmatched_returns_block _ ["掛號結果：視訊"] "視訊" rfl
    (by decide) (by decide) (by decide) rfl).1 (by decide)
    (by decide) (by decide) (by decide) (by decide)

/-- C6: with a parseable stored pause, `should_skip_check` skips exactly
while `now < pause_until`; at and after the boundary it returns false,
clears `pause_until` and saves; a second call on the cleared state returns
the same cleared state without saving (idempotent).  With no stored pause
it returns false and leaves the state untouched. -/
theorem c6_should_skip_boundary (pt : String → Option Nat) (now : Nat)
    (st : CooldownState) :
    (st.pause_until = none → should_skip_check pt now st = ⟨false, st, false⟩)
    ∧ (∀ s t, st.pause_until = some s → s ≠ "" → pt s = some t →
        (should_skip_check pt now st).skip = decide (now < t)
        ∧ (t ≤ now →
            (should_skip_check pt now st).state = { st with pause_until := none }
            ∧ should_skip_check pt now ((should_skip_check pt now st).state) =
                ⟨false, { st with pause_until := none }, false⟩)) := by
  constructor
  · intro h
    simp [should_skip_check, h]
  · intro s t hs hne hpt
    have hsk : should_skip_check pt now st =
        (if now < t then ⟨true, st, false⟩
         else ⟨false, { st with pause_until := none }, true⟩) := by
      simp [should_skip_check, hs, hne, hpt]
    constructor
    · rw [hsk]
      by_cases h : now < t <;> simp [h]
    · intro hle
      have hnlt : ¬ now < t := by omega
      rw [hsk]
      simp [hnlt, should_skip_check]

/-- C6, witnessed at a pause of 10 expiring before `now = 12`: the state
is cleared and a second call returns the same cleared state. -/
theorem c6_should_skip_boundary_witness :
    (should_skip_check (fun s => if s == "T10" then some 10 else none) 12
        ⟨none, some "T10", 0, none⟩).state =
      { (⟨none, some "T10", 0, none⟩ : CooldownState) with pause_until := none }
    ∧ should_skip_check (fun s => if s == "T10" then some 10 else none) 12
        ((should_skip_check (fun s => if s == "T10" then some 10 else none) 12
          ⟨none, some "T10", 0, none⟩).state) =
      ⟨false, { (⟨none, some "T10", 0, none⟩ : CooldownState) with pause_until := none },
        false⟩ :=
  ((c6_should_skip_boundary (fun s => if s == "T10" then some 10 else none) 12
      ⟨none, some "T10", 0, none⟩).2 "T10" 10 rfl (by decide) (by decide)).2
    (by decide)

/-- A stored state whose pause field holds the empty string: present, and
`datetime.fromisoformat('')` raises, so it is not parseable. -/
def c10st : CooldownState :=
  { last_notification_time := none, pause_until := some "",
    notification_count := 0, last_check := none }

/-- C10 counterexample: an empty-string `pause_until` is present and
unparseable, and `should_skip_check` does return false — but it does not
clear the value and does not persist anything, because python's
`if pause_until:` treats the empty string as falsy and bypasses the
whole block. -/
theorem c10_empty_pause_not_cleared :
    (should_skip_check (fun _ => none) 0 c10st).skip = false
    ∧ (should_skip_check (fun _ => none) 0 c10st).state.pause_until = some ""
    ∧ (should_skip_check (fun _ => none) 0 c10st).saved = false := by
  decide

/-- C10 amended: a present, non-empty, unparseable `pause_until` never
fails and never skips: it is cleared, the cleared state is saved, and the
call returns false; an empty-string value also returns false but is left
in place unsaved. -/
theorem c10_unparseable_pause_cleared (pt : String → Option Nat) (now : Nat)
    (st : CooldownState) (s : String)
    (h1 : st.pause_until = some s) (h2 : s ≠ "") (h3 : pt s = none) :
    should_skip_check pt now st = ⟨false, { st with pause_until := none }, true⟩ := by
  simp [should_skip_check, h1, h2, h3]

/-- C10 amended, witnessed on the unparseable stored value `garbage`. -/
theorem c10_unparseable_pause_cleared_witness :
    should_skip_check (fun _ => none) 7 ⟨none, some "garbage", 3, none⟩ =
      ⟨false, { (⟨none, some "garbage", 3, none⟩ : CooldownState) with pause_until := none },
        true⟩ :=
  c10_unparseable_pause_cleared (fun _ => none) 7 _ "garbage" rfl (by decide) rfl

/-- Notification attempts add over trace concatenation. -/
theorem notifyCount_append (a b : List Event) :
    notifyCount (a ++ b) = notifyCount a + notifyCount b := by
  simp [notifyCount, List.countP_append]

/-- A response page whose text carries the full-slot keyword 已額滿. -/
def exFullPage : PageInput :=
  { pageText := "已額滿", strongPairs := [], regexFind := fun _ => none,
    myprintItems := none, tables := [], errorDivTexts := [], parseError := none }

/-- A response page whose text carries the success keyword 掛號成功. -/
def exSuccessPage : PageInput :=
  { pageText := "掛號成功", strongPairs := [], regexFind := fun _ => none,
    myprintItems := none, tables := [], errorDivTexts := [], parseError := none }

/-- C7: when the skip guard and session initialization pass, the run's
external trace is exactly the configured candidates in priority order
(dates outer, doctors inner) up to and including the first successful
response, followed by a single notification attempt carrying that
response's dictionary; the run reports `"success"` exactly when some
candidate's response is a success. -/
theorem c7_priority_order_and_halt (env : Env) (dates : List String)
    (doctors : List Doctor) (st0 : CooldownState)
    (h1 : (should_skip_check env.pt env.now st0).skip = false)
    (h2 : env.initOk = true) :
    (batch_registration env dates doctors st0).2.2 =
      ((candList dates doctors).takeWhile
          (fun c => !(env.respond c.1 c.2.code).success)).map
        (fun c => Event.submit c.1 c.2.code)
      ++ (match (candList dates doctors).dropWhile
              (fun c => !(env.respond c.1 c.2.code).success) with
          | [] => []
          | c :: _ =>
            [Event.submit c.1 c.2.code,
             Event.notifyCall (env.respond c.1 c.2.code) env.notifyOk])
    ∧ notifyCount (batch_registration env dates doctors st0).2.2 =
      (((candList dates doctors).dropWhile
          (fun c => !(env.respond c.1 c.2.code).success)).take 1).length
    ∧ (batch_registration env dates doctors st0).1 =
      (if (candList dates doctors).any (fun c => (env.respond c.1 c.2.code).success)
       then "success" else "no_availability") := by
  have hb := batch_run env dates doctors st0 h1 h2
  have hs := runLoop_spec env (should_skip_check env.pt env.now st0).state
    (candList dates doctors)
  refine ⟨?_, ?_, ?_⟩
  · rw [hb]
    exact hs.2.2
  · rw [hb, hs.2.2, notifyCount_append, notifyCount_map_submit]
    cases hd : (candList dates doctors).dropWhile
        (fun c => !(env.respond c.1 c.2.code).success) with
    | nil => simp [notifyCount]
    | cons c t => simp [notifyCount, List.countP_cons, isNotify]
  · rw [hb]
    exact hs.1

/-- The first doctor of the C7 example (classified full). -/
def exD1 : Doctor := ⟨"4561", "丁瑋信"⟩

/-- The second doctor of the C7 example (classified success). -/
def exD2 : Doctor := ⟨"7777", "王太郎"⟩

/-- Environment of the C7 example: D1's submission comes back full,
D2's comes back successful, notification delivery works. -/
def exEnv : Env :=
  { pt := fun _ => none, iso := fun n => Nat.repr n, now := 100, initOk := true,
    respond := fun _ code =>
      if code == "4561" then parse_result exFullPage else parse_result exSuccessPage,
    notifyOk := true }

/-- C7, witnessed on the spec's example: candidates D1 (full) then D2
(success) produce exactly two submissions in order, one notification
carrying D2's dictionary, and the `"success"` result. -/
theorem c7_priority_order_and_halt_witness :
    (batch_registration exEnv ["2025/12/17"] [exD1, exD2] default_state).2.2 =
      [Event.submit "2025/12/17" "4561", Event.submit "2025/12/17" "7777",
       Event.notifyCall { success := true, full := some false, status := some "掛號成功" } true]
    ∧ (batch_registration exEnv ["2025/12/17"] [exD1, exD2] default_state).1 = "success"
    ∧ notifyCount (batch_registration exEnv ["2025/12/17"] [exD1, exD2] default_state).2.2 = 1 := by
  have h := c7_priority_order_and_halt exEnv ["2025/12/17"] [exD1, exD2]
    default_state (by decide) rfl
  exact ⟨h.1.trans (by decide), h.2.2.trans (by decide), h.2.1.trans (by decide)⟩

/-- Environment in which every submission succeeds but the notification
send fails (`send_email_notification` returns False). -/
def c2Env : Env :=
  { pt := fun _ => none, iso := fun n => Nat.repr n, now := 50, initOk := true,
    respond := fun _ _ => parse_result exSuccessPage, notifyOk := false }

/-- C2 counterexample: a run whose first attempt is classified Success and
whose notification send fails does attempt the notification, but leaves
the stored cooldown state completely unchanged — `pause_until` stays
unset and `notification_count` stays 0 — because the state update sits
inside `if self.send_email_notification(result):`. -/
theorem c2_notify_failure_skips_state_update :
    (batch_registration c2Env ["2025/12/17"] doctors_to_try default_state).1 = "success"
    ∧ (batch_registration c2Env ["2025/12/17"] doctors_to_try default_state).2.2 =
      [Event.submit "2025/12/17" "4561",
       Event.notifyCall { success := true, full := some false, status := some "掛號成功" } false]
    ∧ (batch_registration c2Env ["2025/12/17"] doctors_to_try default_state).2.1 =
      default_state := by
  decide

/-- C2 amended: on every run in which some attempt is classified Success,
the scheduler attempts notification exactly once and returns `"success"`,
but the cooldown state (`pause_until`, `last_notification_time`,
`notification_count`) is updated exactly when the notification send
succeeds; when the send fails the stored state is left as the skip guard
left it. -/
theorem c2_state_update_iff_notify_ok (env : Env) (dates : List String)
    (doctors : List Doctor) (st0 : CooldownState)
    (h1 : (should_skip_check env.pt env.now st0).skip = false)
    (h2 : env.initOk = true)
    (h3 : (candList dates doctors).any
        (fun c => (env.respond c.1 c.2.code).success) = true) :
    (batch_registration env dates doctors st0).1 = "success"
    ∧ notifyCount (batch_registration env dates doctors st0).2.2 = 1
    ∧ (batch_registration env dates doctors st0).2.1 =
      (if env.notifyOk then
        updatedState env (should_skip_check env.pt env.now st0).state
       else (should_skip_check env.pt env.now st0).state) := by
  have hb := batch_run env dates doctors st0 h1 h2
  have hs := runLoop_spec env (should_skip_check env.pt env.now st0).state
    (candList dates doctors)
  refine ⟨?_, ?_, ?_⟩
  · rw [hb, hs.1]
    simp [h3]
  · rw [hb, hs.2.2, notifyCount_append, notifyCount_map_submit]
    cases hd : (candList dates doctors).dropWhile
        (fun c => !(env.respond c.1 c.2.code).success) with
    | nil =>
      exact absurd hd (dropWhile_ne_nil_of_any _ _ h3)
    | cons c t => simp [notifyCount, List.countP_cons, isNotify]
  · rw [hb, hs.2.1]
    simp [h3]

/-- Environment like `c2Env` but with a working notification channel. -/
def c2wEnv : Env :=
  { pt := fun _ => none, iso := fun n => Nat.repr n, now := 50, initOk := true,
    respond := fun _ _ => parse_result exSuccessPage, notifyOk := true }

/-- C2 amended, witnessed on a run whose notification succeeds: the
cooldown state comes back with the two-hour pause, the notification time
and the bumped counter. -/
theorem c2_state_update_iff_notify_ok_witness :
    (batch_registration c2wEnv ["2025/12/17"] doctors_to_try default_state).1 = "success"
    ∧ notifyCount (batch_registration c2wEnv ["2025/12/17"] doctors_to_try default_state).2.2 = 1
    ∧ (batch_registration c2wEnv ["2025/12/17"] doctors_to_try default_state).2.1 =
      { last_notification_time := some "50", pause_until := some "7250",
        notification_count := 1, last_check := none } := by
  have h := c2_state_update_iff_notify_ok c2wEnv ["2025/12/17"] doctors_to_try
    default_state (by decide) rfl (by decide)
  exact ⟨h.1, h.2.1, h.2.2.trans (by decide)⟩

/-- Environment in which every submission comes back full. -/
def c4Env : Env :=
  { pt := fun _ => none, iso := fun n => Nat.repr n, now := 5, initOk := true,
    respond := fun _ _ => parse_result exFullPage, notifyOk := true }

/-- C4 counterexample: a run in which the only attempt is classified Full
ends by writing the current time into `last_check` of the stored state —
the persisted state is not left unchanged. -/
theorem c4_last_check_written_on_full_run :
    (batch_registration c4Env ["2025/12/17"] doctors_to_try default_state).1 =
      "no_availability"
    ∧ (batch_registration c4Env ["2025/12/17"] doctors_to_try default_state).2.1.last_check =
      some "5"
    ∧ default_state.last_check = none := by
  decide

/-- C4 amended: on a run that reaches the attempt loop and in which every
attempt is non-Success, the cooldown fields `pause_until`,
`last_notification_time` and `notification_count` keep the values the
skip guard left them with, while `last_check` is set to the current time
when the candidate list is exhausted. -/
theorem c4_non_success_frame (env : Env) (dates : List String)
    (doctors : List Doctor) (st0 : CooldownState)
    (h1 : (should_skip_check env.pt env.now st0).skip = false)
    (h2 : env.initOk = true)
    (h3 : (candList dates doctors).any
        (fun c => (env.respond c.1 c.2.code).success) = false) :
    (batch_registration env dates doctors st0).1 = "no_availability"
    ∧ (batch_registration env dates doctors st0).2.1.pause_until =
      (should_skip_check env.pt env.now st0).state.pause_until
    ∧ (batch_registration env dates doctors st0).2.1.last_notification_time =
      (should_skip_check env.pt env.now st0).state.last_notification_time
    ∧ (batch_registration env dates doctors st0).2.1.notification_count =
      (should_skip_check env.pt env.now st0).state.notification_count
    ∧ (batch_registration env dates doctors st0).2.1.last_check =
      some (env.iso env.now) := by
  have hb := batch_run env dates doctors st0 h1 h2
  have hs := runLoop_spec env (should_skip_check env.pt env.now st0).state
    (candList dates doctors)
  refine ⟨?_, ?_, ?_, ?_, ?_⟩
  · rw [hb, hs.1]
    simp [h3]
  all_goals
    rw [hb, hs.2.1]
    simp [h3]

/-- C4 amended, witnessed on the all-full environment: cooldown fields
keep their defaults, `last_check` is stamped. -/
theorem c4_non_success_frame_witness :
    (batch_registration c4Env ["2025/12/17"] doctors_to_try default_state).1 =
      "no_availability"
    ∧ (batch_registration c4Env ["2025/12/17"] doctors_to_try default_state).2.1.pause_until =
      none
    ∧ (batch_registration c4Env ["2025/12/17"] doctors_to_try default_state).2.1.notification_count =
      0 := by
  have h := c4_non_success_frame c4Env ["2025/12/17"] doctors_to_try
    default_state (by decide) rfl (by decide)
  exact ⟨h.1, h.2.1.trans (by decide), h.2.2.2.1.trans (by decide)⟩

/-- C9: on every environment, candidate configuration and starting state,
`batch_registration` returns one of exactly the four strings `"skipped"`,
`"init_failed"`, `"success"`, `"no_availability"`. -/
theorem c9_closed_result_set (env : Env) (dates : List String)
    (doctors : List Doctor) (st0 : CooldownState) :
    (batch_registration env dates doctors st0).1 ∈
      (["skipped", "init_failed", "success", "no_availability"] : List String) := by
  by_cases h1 : (should_skip_check env.pt env.now st0).skip = true
  · simp [batch_registration, h1]
  · have h1f : (should_skip_check env.pt env.now st0).skip = false := by
      simp at h1; exact h1
    by_cases h2 : env.initOk = true
    · rw [batch_run env dates doctors st0 h1f h2]
      have hs := (runLoop_spec env (should_skip_check env.pt env.now st0).state
        (candList dates doctors)).1
      rw [hs]
      cases hany : (candList dates doctors).any
          (fun c => (env.respond c.1 c.2.code).success) with
      | true => simp
      | false => simp
    · have h2f : env.initOk = false := by
        simp at h2; exact h2
      simp [batch_registration, h1f, h2f]

/-- Environment whose session bootstrap fails (`init_session` raises). -/
def c5Env : Env :=
  { pt := fun _ => none, iso := fun n => Nat.repr n, now := 0, initOk := false,
    respond := fun _ _ => {}, notifyOk := true }

/-- C5 counterexample: a run that fails session initialization returns
`"init_failed"`, yet `main` still returns 0 — the process exit code on a
session-initialization failure is zero, not non-zero. -/
theorem c5_init_failure_exits_zero :
    (batch_registration c5Env dates_to_try doctors_to_try default_state).1 =
      "init_failed"
    ∧ main_exit true true c5Env default_state = 0 := by
  decide

/-- C5 amended: the process exits 0 whenever the constructor succeeds and
no unhandled exception escapes — including session-initialization-failure
and no-availability runs — and exits 1 exactly when the required
environment variables are missing (`sys.exit(1)` in
`validate_environment`) or an exception reaches `main`'s handler. -/
theorem c5_exit_codes (env : Env) (st0 : CooldownState) (ctorOk : Bool) :
    ((should_skip_check env.pt env.now st0).skip = false → env.initOk = false →
      (batch_registration env dates_to_try doctors_to_try st0).1 = "init_failed")
    ∧ main_exit true true env st0 = 0
    ∧ main_exit false ctorOk env st0 = 1
    ∧ main_exit true false env st0 = 1 := by
  refine ⟨?_, rfl, rfl, rfl⟩
  intro h1 h2
  simp [batch_registration, h1, h2]

/-- C5 amended, witnessed on the failing-session environment. -/
theorem c5_exit_codes_witness :
    (batch_registration c5Env dates_to_try doctors_to_try default_state).1 =
      "init_failed"
    ∧ main_exit false true c5Env default_state = 1 :=
  ⟨(c5_exit_codes c5Env default_state true).1 (by decide) rfl,
   (c5_exit_codes c5Env default_state true).2.2.1⟩
